import Mathlib

/-!
Verification development for the credential and session management core of
the cloudflare-auth-sdk Go repository (src/client.go, src/errors.go,
src/internal/auth).  The external Cloudflare KV store is modelled as an
association list from keys to stored values together with per-key failure
sets for get/set/delete calls; bcrypt and the HMAC signature of the JWT
library are modelled symbolically; `time.Now()` is passed as an explicit
parameter, and timestamps are integers (Unix seconds, matching the second
precision of `jwt.NewNumericDate`).
-/

namespace AuthSdk

/-- Model of the bcrypt password hash blob: the Go code treats the string
returned by `bcrypt.GenerateFromPassword` as opaque; the blob self-describes
its salt, and its digest is determined by (salt, password), so it is modelled
symbolically by that pair. -/
structure BcryptHash where
  salt : String
  password : String
deriving DecidableEq, Repr

/-- Model of `bcrypt.GenerateFromPassword` (external library): the fresh
random salt is passed explicitly. -/
def bcryptGenerateFromPassword (salt password : String) : BcryptHash :=
  ⟨salt, password⟩

/-- Model of `bcrypt.CompareHashAndPassword` (external library): succeeds
exactly when the blob was produced from this password. -/
def bcryptCompareHashAndPassword (hash : BcryptHash) (password : String) : Bool :=
  hash.password == password

/-- The user record persisted in KV (src/models: `User`), timestamps as Unix
seconds. -/
structure User where
  id : String
  email : String
  passwordHash : BcryptHash
  createdAt : Int
  updatedAt : Int
deriving DecidableEq, Repr

/-- Public projection of a user (src/models: `UserInfo`). -/
structure UserInfo where
  id : String
  email : String
deriving DecidableEq, Repr

/-- JWT claims issued by Login (src/models: `Claims` with
`jwt.RegisteredClaims`); times in Unix seconds. -/
structure Claims where
  userID : String
  email : String
  expiresAt : Int
  issuedAt : Int
  notBefore : Int
deriving DecidableEq, Repr

/-- JWT signing algorithms relevant to `parseToken`: the HMAC family that
`jwt.SigningMethodHMAC` covers, plus representative non-HMAC methods. -/
inductive Alg where
  | HS256
  | HS384
  | HS512
  | RS256
  | ES256
deriving DecidableEq, Repr

/-- Whether the method is an instance of `jwt.SigningMethodHMAC` (the type
assertion in `parseToken`'s key function). -/
def Alg.isHMAC : Alg → Bool
  | .HS256 => true
  | .HS384 => true
  | .HS512 => true
  | _ => false

/-- Symbolic MAC value: a signature is sound exactly for the algorithm, key
and signed payload that produced it (ideal-MAC model of the JWT library's
signing primitive). -/
structure Sig where
  alg : Alg
  key : String
  payload : Claims
deriving DecidableEq, Repr

/-- A compact JWT as decoded from the wire: declared header algorithm, the
claims payload, and the signature over them. -/
structure Token where
  alg : Alg
  claims : Claims
  sig : Sig
deriving DecidableEq, Repr

/-- Model of `jwt.NewWithClaims` followed by `token.SignedString(secret)`:
signs the claims with the given method and secret (HMAC signing cannot fail). -/
def signedToken (alg : Alg) (secret : String) (claims : Claims) : Token :=
  ⟨alg, claims, ⟨alg, secret, claims⟩⟩

/-- Bytes stored in a KV entry.  `user u` stands for the JSON serialization of
the user record `u` (round-tripped by `userFromJSON`); `raw s` stands for the
raw string bytes `s`, as written for the id-to-email index entry. -/
inductive Val where
  | user (u : User)
  | raw (s : String)
deriving DecidableEq, Repr

/-- The stored bytes read back as a Go string (`string(emailData)`): raw bytes
are the string itself; for a serialized record it is the JSON text, modelled
by an opaque rendering that our theorems never rely on. -/
def Val.asString : Val → String
  | .raw s => s
  | .user u => "json:" ++ u.id ++ ":" ++ u.email

/-- Model of `userFromJSON`: a serialized record round-trips; raw non-JSON
bytes fail to unmarshal. -/
def userFromJSON : Val → Option User
  | .user u => some u
  | .raw _ => none

/-- Model of `user.toJSON` (marshalling a User never fails). -/
def userToJSON (u : User) : Val := .user u

/-- The state of the external Cloudflare KV namespace: the persisted entries
plus the sets of keys on which a get / set / delete call currently fails
(remote errors injected by the environment; a get on an absent key also
returns an error, per the Cloudflare API). -/
structure KVState where
  store : List (String × Val)
  getErr : List String
  setErr : List String
  delErr : List String

/-- Lookup of the value stored under a key. -/
def kvLookup (st : List (String × Val)) (k : String) : Option Val :=
  match st.find? (fun p => p.1 == k) with
  | some p => some p.2
  | none => none

/-- Overwriting insert of a key-value pair (a Cloudflare KV put replaces any
existing value). -/
def kvInsert (st : List (String × Val)) (k : String) (v : Val) : List (String × Val) :=
  (k, v) :: st.filter (fun p => p.1 != k)

/-- Removal of a key. -/
def kvRemove (st : List (String × Val)) (k : String) : List (String × Val) :=
  st.filter (fun p => p.1 != k)

/-- Model of `Client.kvGet`: returns the bytes on success, `none` when the
remote call fails or the key is absent (both are errors in the Go code, and
`Register` reads the pair as value-plus-discarded-error). -/
def kvGet (m : KVState) (k : String) : Option Val :=
  if k ∈ m.getErr then none else kvLookup m.store k

/-- Model of `Client.kvSet`: `none` signals the remote write failed, otherwise
the updated state. -/
def kvSet (m : KVState) (k : String) (v : Val) : Option KVState :=
  if k ∈ m.setErr then none
  else some { m with store := kvInsert m.store k v }

/-- Model of `Client.kvDelete`: `none` signals the remote delete failed. -/
def kvDelete (m : KVState) (k : String) : Option KVState :=
  if k ∈ m.delErr then none
  else some { m with store := kvRemove m.store k }

/-- Key for the email-keyed record (src/client.go `getUserKey`). -/
def getUserKey (email : String) : String :=
  "user:email:" ++ email

/-- Key for the id-to-email index entry (src/client.go `getUserIDKey`). -/
def getUserIDKey (userID : String) : String :=
  "user:id:" ++ userID

/-- Classification of the underlying error wrapped by an `AppError`
(src/errors.go sentinel errors, the JWT library's verification errors, a
failed KV call, or a JSON unmarshal failure). -/
inductive ErrKind where
  | invalidConfig
  | userNotFound
  | userAlreadyExists
  | invalidCredentials
  | invalidToken
  | invalidInput
  | jwtBadAlg (alg : Alg)
  | jwtBadSignature
  | jwtExpired
  | jwtNotValidYet
  | kvFailure (key : String)
  | jsonFailure
deriving DecidableEq, Repr

/-- Model of `AppError` (src/errors.go): operation name, wrapped cause,
user-facing message, HTTP-style code. -/
structure AppError where
  op : String
  err : ErrKind
  message : String
  code : Int
deriving DecidableEq, Repr

/-- Model of `NewAppError`. -/
def NewAppError (op : String) (err : ErrKind) (message : String) (code : Int) : AppError :=
  ⟨op, err, message, code⟩

/-- The raw error returned by `json.Unmarshal` inside `userFromJSON`, passed
through by `getUserByEmail` without wrapping. -/
def jsonUnmarshalError : AppError :=
  ⟨"", .jsonFailure, "", 0⟩

/-- The SDK client state that the credential operations read
(src/client.go `Client`): the signing secret and the token lifetime in
seconds.  The Cloudflare account/namespace handles are captured by the
`KVState` parameter of each operation. -/
structure Client where
  jwtSecret : String
  jwtExpiry : Int
deriving DecidableEq, Repr

/-- Client construction options (src `ClientOptions`); only the fields the
validation logic and the credential core read. -/
structure ClientOptions where
  APIToken : String
  APIKey : String
  Email : String
  AccountID : String
  NamespaceID : String
  JWTSecret : String
  JWTExpirationHours : Int
deriving DecidableEq, Repr

/-- Model of `ClientOptions.Validate`. -/
def ClientOptions.Validate (o : ClientOptions) : Option AppError :=
  if o.AccountID = "" then some ⟨"", .invalidConfig, "AccountID is required", 0⟩
  else if o.NamespaceID = "" then some ⟨"", .invalidConfig, "NamespaceID is required", 0⟩
  else if o.JWTSecret = "" then some ⟨"", .invalidConfig, "JWTSecret is required", 0⟩
  else if o.APIToken = "" ∧ (o.APIKey = "" ∨ o.Email = "") then
    some ⟨"", .invalidConfig, "either APIToken or both APIKey and Email are required", 0⟩
  else none

/-- Model of `NewClient` (src/client.go lines 52-87): after validation,
`jwtExpiry := Duration(JWTExpirationHours) * Hour`, and if that duration is
zero it defaults to 24 hours (durations rendered in seconds). -/
def NewClient (opts : ClientOptions) : Except AppError Client :=
  match opts.Validate with
  | some e => .error e
  | none =>
    let e0 : Int := opts.JWTExpirationHours * 3600
    let jwtExpiry : Int := if e0 = 0 then 24 * 3600 else e0
    .ok ⟨opts.JWTSecret, jwtExpiry⟩

/-- Observable effects of an operation against its collaborators: KV calls by
key, bcrypt work, and JWT signing.  Used to state that the input-validation
failures touch none of them. -/
inductive Eff where
  | getE (k : String)
  | setE (k : String)
  | delE (k : String)
  | hashE
  | signE
deriving DecidableEq, Repr

/-- Model of `Client.getUserByEmail` (src/client.go lines 261-271): read the
email-keyed entry, then unmarshal. -/
def getUserByEmail (m : KVState) (email : String) : Except AppError User :=
  match kvGet m (getUserKey email) with
  | none => .error (NewAppError "Client.getUserByEmail" .userNotFound "user not found" 404)
  | some v =>
    match userFromJSON v with
    | none => .error jsonUnmarshalError
    | some u => .ok u

/-- Model of `Client.GetUserByID` (src/client.go lines 195-206): resolve the
id to an email through the index entry, then delegate to `getUserByEmail`. -/
def GetUserByID (m : KVState) (userID : String) : Except AppError User :=
  match kvGet m (getUserIDKey userID) with
  | none => .error (NewAppError "Client.GetUserByID" .userNotFound "user not found" 404)
  | some emailData => getUserByEmail m emailData.asString

/-- Model of `Client.saveUser` (src/client.go lines 274-294): write the
email-keyed serialized record, then the id-keyed email index; the first
failure aborts and is wrapped with the operation name.  Returns the result,
the KV state reached, and the trace of KV writes attempted. -/
def saveUser (m : KVState) (u : User) : Except AppError Unit × KVState × List Eff :=
  let userKey := getUserKey u.email
  match kvSet m userKey (userToJSON u) with
  | none =>
    (.error (NewAppError "Client.saveUser" (.kvFailure userKey) "failed to save user" 500),
      m, [.setE userKey])
  | some m1 =>
    let idKey := getUserIDKey u.id
    match kvSet m1 idKey (.raw u.email) with
    | none =>
      (.error (NewAppError "Client.saveUser" (.kvFailure idKey) "failed to save user ID mapping" 500),
        m1, [.setE userKey, .setE idKey])
    | some m2 => (.ok (), m2, [.setE userKey, .setE idKey])

/-- Model of `Client.Register` (src/client.go lines 93-129).  The fresh UUID
`freshId`, the bcrypt salt and `time.Now()` are explicit parameters.  The
existence probe discards the KV error (`existingData, _ := c.kvGet ...`), so
a failed get is indistinguishable from an absent key. -/
def Register (m : KVState) (freshId salt : String) (now : Int)
    (email password : String) : Except AppError User × KVState × List Eff :=
  if email = "" ∨ password = "" then
    (.error (NewAppError "Client.Register" .invalidInput "email and password are required" 400),
      m, [])
  else
    let userKey := getUserKey email
    match kvGet m userKey with
    | some _ =>
      (.error (NewAppError "Client.Register" .userAlreadyExists "user already exists" 409),
        m, [.getE userKey])
    | none =>
      let passwordHash := bcryptGenerateFromPassword salt password
      let u : User := ⟨freshId, email, passwordHash, now, now⟩
      match saveUser m u with
      | (.error e, m1, effs) => (.error e, m1, [.getE userKey, .hashE] ++ effs)
      | (.ok _, m1, effs) => (.ok u, m1, [.getE userKey, .hashE] ++ effs)

/-- The successful login payload (src/models: `LoginResponse`). -/
structure LoginResponse where
  token : Token
  expiresAt : Int
  user : UserInfo
deriving DecidableEq, Repr

/-- Model of `Client.Login` (src/client.go lines 134-178).  Any failure of the
email lookup is reported as `ErrUserNotFound`; a record whose stored hash
does not verify yields `ErrInvalidCredentials`; otherwise claims with
`issuedAt = notBefore = now` and `expiresAt = now + jwtExpiry` are signed
with HS256 under the client secret. -/
def Login (c : Client) (m : KVState) (now : Int)
    (email password : String) : Except AppError LoginResponse × List Eff :=
  if email = "" ∨ password = "" then
    (.error (NewAppError "Client.Login" .invalidInput "email and password are required" 400), [])
  else
    let userKey := getUserKey email
    match getUserByEmail m email with
    | .error _ =>
      (.error (NewAppError "Client.Login" .userNotFound "user not found" 404), [.getE userKey])
    | .ok u =>
      if ¬ bcryptCompareHashAndPassword u.passwordHash password then
        (.error (NewAppError "Client.Login" .invalidCredentials "invalid credentials" 401),
          [.getE userKey, .hashE])
      else
        let expiresAt := now + c.jwtExpiry
        let claims : Claims := ⟨u.id, u.email, expiresAt, now, now⟩
        let token := signedToken .HS256 c.jwtSecret claims
        (.ok ⟨token, expiresAt, ⟨u.id, u.email⟩⟩, [.getE userKey, .hashE, .signE])

/-- Model of `Client.parseToken` (src/client.go lines 238-258) over the JWT
library's `ParseWithClaims`: the key function rejects any method that is not
`jwt.SigningMethodHMAC`; then the signature is verified with the declared
method and the shared secret; then the registered claims are validated
(valid iff `notBefore ≤ now < expiresAt`, second precision, zero leeway).
Every failure surfaces as a 401 "invalid token" `AppError` wrapping the
stage-specific cause. -/
def parseToken (secret : String) (now : Int) (tok : Token) : Except AppError Claims :=
  if ¬ tok.alg.isHMAC then
    .error (NewAppError "Client.parseToken" (.jwtBadAlg tok.alg) "invalid token" 401)
  else if tok.sig ≠ (⟨tok.alg, secret, tok.claims⟩ : Sig) then
    .error (NewAppError "Client.parseToken" .jwtBadSignature "invalid token" 401)
  else if ¬ now < tok.claims.expiresAt then
    .error (NewAppError "Client.parseToken" .jwtExpired "invalid token" 401)
  else if now < tok.claims.notBefore then
    .error (NewAppError "Client.parseToken" .jwtNotValidYet "invalid token" 401)
  else
    .ok tok.claims

/-- Model of `Client.ValidateToken` (src/client.go lines 183-192): verify the
token, then re-fetch the live record by the embedded user id. -/
def ValidateToken (c : Client) (m : KVState) (now : Int) (tok : Token) :
    Except AppError User :=
  match parseToken c.jwtSecret now tok with
  | .error e => .error e
  | .ok claims => GetUserByID m claims.userID

/-- Model of `Client.DeleteUser` (src/client.go lines 214-235): fetch the
record to learn the id, delete the email-keyed entry, then the id-keyed
index entry. -/
def DeleteUser (m : KVState) (email : String) : Except AppError Unit × KVState :=
  match getUserByEmail m email with
  | .error e => (.error e, m)
  | .ok u =>
    let userKey := getUserKey email
    match kvDelete m userKey with
    | none =>
      (.error (NewAppError "Client.DeleteUser" (.kvFailure userKey) "failed to delete user" 500), m)
    | some m1 =>
      let idKey := getUserIDKey u.id
      match kvDelete m1 idKey with
      | none =>
        (.error (NewAppError "Client.DeleteUser" (.kvFailure idKey)
          "failed to delete user ID mapping" 500), m1)
      | some m2 => (.ok (), m2)

/-! Basic lemmas about the association-list store. -/

theorem find?_filter_ne (st : List (String × Val)) (k k' : String) (h : k' ≠ k) :
    (st.filter (fun p => p.1 != k)).find? (fun p => p.1 == k') =
      st.find? (fun p => p.1 == k') := by
  induction st with
  | nil => rfl
  | cons a st ih =>
    by_cases hak : a.1 = k
    · have hkk' : (k == k') = false := by
        simp
        exact fun hk => h hk.symm
      simp [List.filter, List.find?, hak, hkk', ih]
    · by_cases hak' : a.1 = k'
      · have hb : (k' != k) = true := by simpa using h
        simp [List.filter, List.find?, hak, hak', hb, ih]
      · have hb : (a.1 != k) = true := by simpa using hak
        have hb' : (a.1 == k') = false := by simpa using hak'
        simp [List.filter, List.find?, hb, hb', ih]

theorem kvLookup_insert_self (st : List (String × Val)) (k : String) (v : Val) :
    kvLookup (kvInsert st k v) k = some v := by
  simp [kvLookup, kvInsert, List.find?]

theorem kvLookup_insert_ne (st : List (String × Val)) (k k' : String) (v : Val)
    (h : k' ≠ k) : kvLookup (kvInsert st k v) k' = kvLookup st k' := by
  have hk : (k == k') = false := by
    simp
    intro hk
    exact h hk.symm
  simp [kvLookup, kvInsert, List.find?, hk, find?_filter_ne st k k' h]

theorem kvLookup_remove_self (st : List (String × Val)) (k : String) :
    kvLookup (kvRemove st k) k = none := by
  have : (st.filter (fun p => p.1 != k)).find? (fun p => p.1 == k) = none := by
    rw [List.find?_eq_none]
    intro p hp
    have := List.of_mem_filter hp
    simpa using this
  simp [kvLookup, kvRemove, this]

theorem kvLookup_remove_ne (st : List (String × Val)) (k k' : String)
    (h : k' ≠ k) : kvLookup (kvRemove st k) k' = kvLookup st k' := by
  simp [kvLookup, kvRemove, find?_filter_ne st k k' h]

/-! Lemmas about the two key namespaces. -/

theorem getUserKey_injective (e1 e2 : String) (h : getUserKey e1 = getUserKey e2) :
    e1 = e2 := by
  have hd : ("user:email:" : String).data ++ e1.data =
      ("user:email:" : String).data ++ e2.data := by
    have := congrArg String.data h
    simpa [getUserKey] using this
  have hdata : e1.data = e2.data := List.append_cancel_left hd
  cases e1
  cases e2
  exact congrArg String.mk hdata

theorem getUserIDKey_injective (i1 i2 : String) (h : getUserIDKey i1 = getUserIDKey i2) :
    i1 = i2 := by
  have hd : ("user:id:" : String).data ++ i1.data =
      ("user:id:" : String).data ++ i2.data := by
    have := congrArg String.data h
    simpa [getUserIDKey] using this
  have hdata : i1.data = i2.data := List.append_cancel_left hd
  cases i1
  cases i2
  exact congrArg String.mk hdata

theorem getUserKey_ne_getUserIDKey (email userID : String) :
    getUserKey email ≠ getUserIDKey userID := by
  intro h
  have hd : ("user:email:" : String).data ++ email.data =
      ("user:id:" : String).data ++ userID.data := by
    have hdd := congrArg String.data h
    simp only [getUserKey, getUserIDKey, String.data_append] at hdd
    exact hdd
  have h5 : (("user:email:" : String).data ++ email.data)[5]? =
      (("user:id:" : String).data ++ userID.data)[5]? := by rw [hd]
  have hl : (("user:email:" : String).data ++ email.data)[5]? = some 'e' := rfl
  have hr : (("user:id:" : String).data ++ userID.data)[5]? = some 'i' := rfl
  rw [hl, hr] at h5
  simp at h5

/-! Inversion lemmas for the state-changing operations. -/

theorem saveUser_ok_inv (m : KVState) (u : User) (m1 : KVState) (effs : List Eff)
    (h : saveUser m u = (.ok (), m1, effs)) :
    getUserKey u.email ∉ m.setErr ∧ getUserIDKey u.id ∉ m.setErr ∧
    m1 = { m with store := kvInsert (kvInsert m.store (getUserKey u.email) (.user u))
                    (getUserIDKey u.id) (.raw u.email) } ∧
    effs = [.setE (getUserKey u.email), .setE (getUserIDKey u.id)] := by
  by_cases h1 : getUserKey u.email ∈ m.setErr
  · simp [saveUser, kvSet, h1] at h
  · by_cases h2 : getUserIDKey u.id ∈ m.setErr
    · simp [saveUser, kvSet, h1, h2] at h
    · simp [saveUser, kvSet, userToJSON, h1, h2] at h
      exact ⟨h1, h2, h.1.symm, h.2.symm⟩

theorem Register_ok_inv (m : KVState) (freshId salt : String) (now : Int)
    (email password : String) (u : User) (m1 : KVState) (effs : List Eff)
    (h : Register m freshId salt now email password = (.ok u, m1, effs)) :
    email ≠ "" ∧ password ≠ "" ∧
    kvGet m (getUserKey email) = none ∧
    u = ⟨freshId, email, bcryptGenerateFromPassword salt password, now, now⟩ ∧
    getUserKey email ∉ m.setErr ∧ getUserIDKey freshId ∉ m.setErr ∧
    m1 = { m with store := kvInsert (kvInsert m.store (getUserKey email) (.user u))
                    (getUserIDKey freshId) (.raw email) } ∧
    effs = [.getE (getUserKey email), .hashE, .setE (getUserKey email),
      .setE (getUserIDKey freshId)] := by
  by_cases h0 : email = "" ∨ password = ""
  · unfold Register at h
    rw [if_pos h0] at h
    simp at h
  · unfold Register at h
    rw [if_neg h0] at h
    cases hprobe : kvGet m (getUserKey email) with
    | some v => simp only [hprobe] at h; simp at h
    | none =>
      simp only [hprobe] at h
      push_neg at h0
      cases hsave : saveUser m ⟨freshId, email, bcryptGenerateFromPassword salt password, now, now⟩ with
      | mk res rest =>
        cases rest with
        | mk ms effsS =>
          cases res with
          | error e => rw [hsave] at h; simp at h
          | ok uv =>
            rw [hsave] at h
            simp at h
            obtain ⟨hu, hm, he⟩ := h
            obtain ⟨hs1, hs2, hm1, heffs⟩ := saveUser_ok_inv m _ ms effsS hsave
            subst hu
            refine ⟨h0.1, h0.2, rfl, rfl, hs1, hs2, ?_, ?_⟩
            · rw [← hm, hm1]
            · rw [← he, heffs]

theorem Login_ok_inv (c : Client) (m : KVState) (now : Int) (email password : String)
    (resp : LoginResponse) (effs : List Eff)
    (h : Login c m now email password = (.ok resp, effs)) :
    ∃ u, getUserByEmail m email = .ok u ∧
      bcryptCompareHashAndPassword u.passwordHash password = true ∧
      resp = ⟨signedToken .HS256 c.jwtSecret ⟨u.id, u.email, now + c.jwtExpiry, now, now⟩,
        now + c.jwtExpiry, ⟨u.id, u.email⟩⟩ ∧
      effs = [.getE (getUserKey email), .hashE, .signE] := by
  by_cases h0 : email = "" ∨ password = ""
  · unfold Login at h
    rw [if_pos h0] at h
    simp at h
  · unfold Login at h
    rw [if_neg h0] at h
    cases hget : getUserByEmail m email with
    | error e => rw [hget] at h; simp at h
    | ok u =>
      rw [hget] at h
      by_cases hcmp : bcryptCompareHashAndPassword u.passwordHash password = true
      · simp [hcmp] at h
        exact ⟨u, rfl, hcmp, h.1.symm, h.2.symm⟩
      · simp [hcmp] at h

theorem DeleteUser_ok_inv (m : KVState) (email : String) (m1 : KVState)
    (h : DeleteUser m email = (.ok (), m1)) :
    ∃ u, getUserByEmail m email = .ok u ∧
      getUserKey email ∉ m.delErr ∧ getUserIDKey u.id ∉ m.delErr ∧
      m1 = { m with store := kvRemove (kvRemove m.store (getUserKey email))
                      (getUserIDKey u.id) } := by
  unfold DeleteUser at h
  cases hget : getUserByEmail m email with
  | error e => rw [hget] at h; simp at h
  | ok u =>
    rw [hget] at h
    by_cases h1 : getUserKey email ∈ m.delErr
    · simp [kvDelete, h1] at h
    · by_cases h2 : getUserIDKey u.id ∈ m.delErr
      · simp [kvDelete, h1, h2] at h
      · simp [kvDelete, h1, h2] at h
        exact ⟨u, rfl, h1, h2, h.symm⟩

/-- C7: key derivation is deterministic (it is a function of its argument
alone) and collision-free: `getUserKey` and `getUserIDKey` are injective, and
the email-keyed namespace never meets the id-keyed namespace, even when the
id looks like an email. -/
theorem claim_key_derivation_collision_free :
    (∀ e1 e2 : String, getUserKey e1 = getUserKey e2 → e1 = e2) ∧
    (∀ i1 i2 : String, getUserIDKey i1 = getUserIDKey i2 → i1 = i2) ∧
    (∀ email userID : String, getUserKey email ≠ getUserIDKey userID) :=
  ⟨getUserKey_injective, getUserIDKey_injective, getUserKey_ne_getUserIDKey⟩

/-- Witness for C7 at concrete inputs, including an id that looks like an
email. -/
theorem claim_key_derivation_collision_free_witness :
    ("a@x.com" : String) = "a@x.com" ∧
    getUserKey "a@x.com" ≠ getUserIDKey "a@x.com" :=
  ⟨claim_key_derivation_collision_free.1 "a@x.com" "a@x.com" rfl,
   claim_key_derivation_collision_free.2.2 "a@x.com" "a@x.com"⟩

/-- C9: with an empty email or an empty password, `Register` and `Login` both
fail with an error wrapping `ErrInvalidInput`, the KV state is returned
unchanged, and the empty effect trace shows that no KV call, no bcrypt work
and no token signing happened. -/
theorem claim_empty_input_rejected_without_effects (c : Client) (m : KVState)
    (freshId salt : String) (now : Int) (email password : String)
    (h : email = "" ∨ password = "") :
    (∃ e, Register m freshId salt now email password = (.error e, m, []) ∧
      e.err = .invalidInput ∧ e.code = 400) ∧
    (∃ e, Login c m now email password = (.error e, []) ∧
      e.err = .invalidInput ∧ e.code = 400) := by
  constructor
  · exact ⟨_, by unfold Register; rw [if_pos h], rfl, rfl⟩
  · exact ⟨_, by unfold Login; rw [if_pos h], rfl, rfl⟩

/-- Witness for C9: empty password with a non-empty email. -/
theorem claim_empty_input_rejected_without_effects_witness :
    (∃ e, Register ⟨[], [], [], []⟩ "id1" "s1" 0 "a@x.com" "" = (.error e, ⟨[], [], [], []⟩, []) ∧
      e.err = .invalidInput ∧ e.code = 400) ∧
    (∃ e, Login ⟨"sec", 3600⟩ ⟨[], [], [], []⟩ 0 "a@x.com" "" = (.error e, []) ∧
      e.err = .invalidInput ∧ e.code = 400) :=
  claim_empty_input_rejected_without_effects ⟨"sec", 3600⟩ ⟨[], [], [], []⟩
    "id1" "s1" 0 "a@x.com" "" (Or.inr rfl)

/-- C2 counterexample: the claim says every token whose declared algorithm
differs from the issued one (HS256) is rejected; but `parseToken` only checks
membership in the HMAC method family, so a well-formed HS384 token correctly
signed under the shared secret is accepted. -/
theorem claim_alg_confusion_counterexample :
    Alg.HS384 ≠ Alg.HS256 ∧
    parseToken "shared-secret" 0
      ⟨.HS384, ⟨"u1", "u@x.com", 100, 0, 0⟩,
        ⟨.HS384, "shared-secret", ⟨"u1", "u@x.com", 100, 0, 0⟩⟩⟩ =
      .ok ⟨"u1", "u@x.com", 100, 0, 0⟩ := by
  exact ⟨by decide, rfl⟩

/-- C2 amended: `parseToken` (hence `ValidateToken`) rejects with an
invalid-token error every token whose declared algorithm lies outside the
HMAC family (`jwt.SigningMethodHMAC`); tokens declaring HS384 or HS512 and
signed with the shared secret pass the algorithm check, so the rejection is
per family, not per the exact issued algorithm HS256. -/
theorem claim_non_hmac_alg_rejected (secret : String) (now : Int) (tok : Token)
    (h : tok.alg.isHMAC = false) :
    ∃ e, parseToken secret now tok = .error e ∧
      e.op = "Client.parseToken" ∧ e.err = .jwtBadAlg tok.alg ∧
      e.message = "invalid token" ∧ e.code = 401 := by
  refine ⟨NewAppError "Client.parseToken" (.jwtBadAlg tok.alg) "invalid token" 401,
    ?_, rfl, rfl, rfl, rfl⟩
  unfold parseToken
  rw [if_pos (by simp [h])]

/-- Witness for the amended C2: an RS256 token, correctly formed and even
carrying a signature naming the shared secret, is rejected. -/
theorem claim_non_hmac_alg_rejected_witness :
    ∃ e, parseToken "shared-secret" 0
      ⟨.RS256, ⟨"u1", "u@x.com", 100, 0, 0⟩,
        ⟨.RS256, "shared-secret", ⟨"u1", "u@x.com", 100, 0, 0⟩⟩⟩ = .error e ∧
      e.op = "Client.parseToken" ∧ e.err = .jwtBadAlg .RS256 ∧
      e.message = "invalid token" ∧ e.code = 401 :=
  claim_non_hmac_alg_rejected "shared-secret" 0
    ⟨.RS256, ⟨"u1", "u@x.com", 100, 0, 0⟩,
      ⟨.RS256, "shared-secret", ⟨"u1", "u@x.com", 100, 0, 0⟩⟩⟩ rfl

/-- C8: every successful Login carries claims with
`issuedAt = notBefore = now` and `expiresAt = now + configured lifetime`, the
response expiry equals the claims expiry, and a client built by `NewClient`
with `JWTExpirationHours` left at zero gets the 24-hour default lifetime. -/
theorem claim_login_token_times_and_default_expiry :
    (∀ (c : Client) (m : KVState) (now : Int) (email password : String)
      (resp : LoginResponse) (effs : List Eff),
      Login c m now email password = (.ok resp, effs) →
      resp.token.claims.issuedAt = now ∧
      resp.token.claims.notBefore = now ∧
      resp.token.claims.expiresAt = now + c.jwtExpiry ∧
      resp.expiresAt = resp.token.claims.expiresAt) ∧
    (∀ (opts : ClientOptions) (c : Client), NewClient opts = .ok c →
      c.jwtExpiry = (if opts.JWTExpirationHours * 3600 = 0 then 24 * 3600
                     else opts.JWTExpirationHours * 3600)) := by
  constructor
  · intro c m now email password resp effs h
    obtain ⟨u, -, -, hresp, -⟩ := Login_ok_inv c m now email password resp effs h
    subst hresp
    exact ⟨rfl, rfl, rfl, rfl⟩
  · intro opts c h
    unfold NewClient at h
    cases hv : opts.Validate with
    | some e => rw [hv] at h; simp at h
    | none =>
      rw [hv] at h
      simp at h
      rw [← h]
      by_cases h0 : opts.JWTExpirationHours = 0
      · simp [h0]
      · have h1 : ¬ opts.JWTExpirationHours * 3600 = 0 := by simp [h0]
        simp [h0, h1]

/-- Witness for C8: a concrete login on a one-user store with the default
24-hour client, and a concrete `NewClient` call with the hours unset. -/
theorem claim_login_token_times_and_default_expiry_witness :
    (Login ⟨"sec", 86400⟩
        ⟨[("user:email:a@x.com", .user ⟨"id1", "a@x.com", ⟨"s1", "pw"⟩, 0, 0⟩)], [], [], []⟩
        5 "a@x.com" "pw" =
      (.ok ⟨signedToken .HS256 "sec" ⟨"id1", "a@x.com", 5 + 86400, 5, 5⟩, 5 + 86400,
        ⟨"id1", "a@x.com"⟩⟩,
       [.getE "user:email:a@x.com", .hashE, .signE]) ∧
      (5 + 86400 : Int) = 5 + 86400) ∧
    (NewClient ⟨"tok", "", "", "acc", "ns", "sec", 0⟩ = .ok ⟨"sec", 86400⟩ ∧
      (86400 : Int) = if (0 : Int) * 3600 = 0 then 24 * 3600 else 0 * 3600) := by
  constructor
  · constructor
    · rfl
    · have := claim_login_token_times_and_default_expiry.1 ⟨"sec", 86400⟩
        ⟨[("user:email:a@x.com", .user ⟨"id1", "a@x.com", ⟨"s1", "pw"⟩, 0, 0⟩)], [], [], []⟩
        5 "a@x.com" "pw"
        ⟨signedToken .HS256 "sec" ⟨"id1", "a@x.com", 5 + 86400, 5, 5⟩, 5 + 86400,
          ⟨"id1", "a@x.com"⟩⟩
        [.getE "user:email:a@x.com", .hashE, .signE] rfl
      exact this.2.2.2
  · constructor
    · rfl
    · exact claim_login_token_times_and_default_expiry.2
        ⟨"tok", "", "", "acc", "ns", "sec", 0⟩ ⟨"sec", 86400⟩ rfl

/-- Register against a state whose email-keyed probe returns data: conflict,
state unchanged, no write attempted. -/
theorem Register_conflict (m : KVState) (freshId salt : String) (now : Int)
    (email password : String) (v : Val)
    (he : email ≠ "") (hp : password ≠ "")
    (hprobe : kvGet m (getUserKey email) = some v) :
    Register m freshId salt now email password =
      (.error (NewAppError "Client.Register" .userAlreadyExists "user already exists" 409),
        m, [.getE (getUserKey email)]) := by
  unfold Register
  rw [if_neg (by simp [he, hp])]
  simp only [hprobe]

/-- C6: when the email-keyed probe finds an existing record, `Register`
returns `ErrUserAlreadyExists`, leaves the KV state untouched and attempts no
write; in particular a second sequential `Register` with the same email (on a
store whose reads work) fails this way. -/
theorem claim_register_existing_email_conflict :
    (∀ (m : KVState) (freshId salt : String) (now : Int) (email password : String) (v : Val),
      email ≠ "" → password ≠ "" →
      kvGet m (getUserKey email) = some v →
      ∃ e, Register m freshId salt now email password =
          (.error e, m, [.getE (getUserKey email)]) ∧
        e.op = "Client.Register" ∧ e.err = .userAlreadyExists ∧ e.code = 409) ∧
    (∀ (m m1 : KVState) (fid1 s1 fid2 s2 : String) (t1 t2 : Int)
      (email p1 p2 : String) (u : User) (effs : List Eff),
      Register m fid1 s1 t1 email p1 = (.ok u, m1, effs) →
      getUserKey email ∉ m.getErr →
      p2 ≠ "" →
      ∃ e, Register m1 fid2 s2 t2 email p2 =
          (.error e, m1, [.getE (getUserKey email)]) ∧
        e.err = .userAlreadyExists) := by
  constructor
  · intro m freshId salt now email password v he hp hprobe
    exact ⟨_, Register_conflict m freshId salt now email password v he hp hprobe, rfl, rfl, rfl⟩
  · intro m m1 fid1 s1 fid2 s2 t1 t2 email p1 p2 u effs hreg hget hp2
    obtain ⟨he, -, -, -, -, -, hm1, -⟩ :=
      Register_ok_inv m fid1 s1 t1 email p1 u m1 effs hreg
    have hprobe : kvGet m1 (getUserKey email) = some (.user u) := by
      subst hm1
      unfold kvGet
      rw [if_neg hget]
      rw [kvLookup_insert_ne _ _ _ _ (getUserKey_ne_getUserIDKey email fid1),
        kvLookup_insert_self]
    exact ⟨_, Register_conflict m1 fid2 s2 t2 email p2 _ he hp2 hprobe, rfl⟩

/-- Witness for C6: two sequential registrations of the same email on an
initially empty, failure-free store. -/
theorem claim_register_existing_email_conflict_witness :
    ∃ e, Register
        { store := kvInsert (kvInsert ([] : List (String × Val)) (getUserKey "a@x.com")
            (.user ⟨"id1", "a@x.com", bcryptGenerateFromPassword "s1" "pw", 0, 0⟩))
            (getUserIDKey "id1") (.raw "a@x.com"),
          getErr := [], setErr := [], delErr := [] }
        "id2" "s2" 7 "a@x.com" "pw2" =
      (.error e,
        { store := kvInsert (kvInsert ([] : List (String × Val)) (getUserKey "a@x.com")
            (.user ⟨"id1", "a@x.com", bcryptGenerateFromPassword "s1" "pw", 0, 0⟩))
            (getUserIDKey "id1") (.raw "a@x.com"),
          getErr := [], setErr := [], delErr := [] },
        [.getE (getUserKey "a@x.com")]) ∧
      e.err = .userAlreadyExists :=
  claim_register_existing_email_conflict.2
    ⟨[], [], [], []⟩ _ "id1" "s1" "id2" "s2" 0 7 "a@x.com" "pw" "pw2"
    ⟨"id1", "a@x.com", bcryptGenerateFromPassword "s1" "pw", 0, 0⟩
    [.getE (getUserKey "a@x.com"), .hashE, .setE (getUserKey "a@x.com"),
      .setE (getUserIDKey "id1")]
    rfl (by simp) (by simp)

/-- C4: with non-empty inputs, `Login` wraps `ErrUserNotFound` when no
email-keyed record exists, and wraps `ErrInvalidCredentials` (a different
error, with a different code) when the record exists and is readable but the
password fails bcrypt verification against the stored hash. -/
theorem claim_login_error_taxonomy :
    (∀ (c : Client) (m : KVState) (now : Int) (email password : String),
      email ≠ "" → password ≠ "" →
      kvLookup m.store (getUserKey email) = none →
      ∃ e, Login c m now email password = (.error e, [.getE (getUserKey email)]) ∧
        e.op = "Client.Login" ∧ e.err = .userNotFound ∧ e.code = 404) ∧
    (∀ (c : Client) (m : KVState) (now : Int) (email password : String) (u : User),
      email ≠ "" → password ≠ "" →
      getUserKey email ∉ m.getErr →
      kvLookup m.store (getUserKey email) = some (.user u) →
      bcryptCompareHashAndPassword u.passwordHash password = false →
      ∃ e, Login c m now email password = (.error e, [.getE (getUserKey email), .hashE]) ∧
        e.op = "Client.Login" ∧ e.err = .invalidCredentials ∧ e.code = 401) := by
  constructor
  · intro c m now email password he hp hlook
    have hkv : kvGet m (getUserKey email) = none := by
      unfold kvGet
      split
      · rfl
      · exact hlook
    have hge : getUserByEmail m email =
        .error (NewAppError "Client.getUserByEmail" .userNotFound "user not found" 404) := by
      unfold getUserByEmail
      rw [hkv]
    refine ⟨NewAppError "Client.Login" .userNotFound "user not found" 404, ?_, rfl, rfl, rfl⟩
    unfold Login
    rw [if_neg (by simp [he, hp])]
    simp only [hge]
  · intro c m now email password u he hp hget hlook hcmp
    have hkv : kvGet m (getUserKey email) = some (.user u) := by
      unfold kvGet
      rw [if_neg hget]
      exact hlook
    have hge : getUserByEmail m email = .ok u := by
      unfold getUserByEmail
      rw [hkv]
      rfl
    refine ⟨NewAppError "Client.Login" .invalidCredentials "invalid credentials" 401,
      ?_, rfl, rfl, rfl⟩
    unfold Login
    rw [if_neg (by simp [he, hp])]
    simp only [hge, hcmp]
    simp [hcmp]

/-- Witness for C4: a missing email on an empty store, and a wrong password
against a one-user store. -/
theorem claim_login_error_taxonomy_witness :
    (∃ e, Login ⟨"sec", 3600⟩ ⟨[], [], [], []⟩ 0 "a@x.com" "pw" =
        (.error e, [.getE (getUserKey "a@x.com")]) ∧
      e.op = "Client.Login" ∧ e.err = .userNotFound ∧ e.code = 404) ∧
    (∃ e, Login ⟨"sec", 3600⟩
        ⟨[("user:email:a@x.com", .user ⟨"id1", "a@x.com", ⟨"s1", "pw"⟩, 0, 0⟩)], [], [], []⟩
        0 "a@x.com" "wrong" =
        (.error e, [.getE (getUserKey "a@x.com"), .hashE]) ∧
      e.op = "Client.Login" ∧ e.err = .invalidCredentials ∧ e.code = 401) :=
  ⟨claim_login_error_taxonomy.1 ⟨"sec", 3600⟩ ⟨[], [], [], []⟩ 0 "a@x.com" "pw"
      (by simp) (by simp) rfl,
   claim_login_error_taxonomy.2 ⟨"sec", 3600⟩
      ⟨[("user:email:a@x.com", .user ⟨"id1", "a@x.com", ⟨"s1", "pw"⟩, 0, 0⟩)], [], [], []⟩
      0 "a@x.com" "wrong" ⟨"id1", "a@x.com", ⟨"s1", "pw"⟩, 0, 0⟩
      (by simp) (by simp) (by simp) rfl (by decide)⟩

/-- C5: if during `Register` the email-keyed write succeeds but the id-keyed
index write fails, the error is surfaced (a 500 `AppError` from
`Client.saveUser` wrapping the failed KV call on the id key, message
"failed to save user ID mapping"), and the resulting state holds the record
under the email key but not under the id key: `getUserByEmail` finds it,
`GetUserByID` reports user-not-found. -/
theorem claim_register_partial_write_surfaced (m : KVState) (freshId salt : String)
    (now : Int) (email password : String)
    (he : email ≠ "") (hp : password ≠ "")
    (hgetU : getUserKey email ∉ m.getErr)
    (hlookU : kvLookup m.store (getUserKey email) = none)
    (hlookI : kvLookup m.store (getUserIDKey freshId) = none)
    (hsetU : getUserKey email ∉ m.setErr)
    (hsetI : getUserIDKey freshId ∈ m.setErr) :
    ∃ m1,
      Register m freshId salt now email password =
        (.error (NewAppError "Client.saveUser" (.kvFailure (getUserIDKey freshId))
            "failed to save user ID mapping" 500),
          m1,
          [.getE (getUserKey email), .hashE, .setE (getUserKey email),
            .setE (getUserIDKey freshId)]) ∧
      (∃ u, getUserByEmail m1 email = .ok u ∧ u.id = freshId ∧ u.email = email) ∧
      (∃ e2, GetUserByID m1 freshId = .error e2 ∧ e2.err = .userNotFound) := by
  have hkv : kvGet m (getUserKey email) = none := by
    unfold kvGet
    rw [if_neg hgetU]
    exact hlookU
  refine ⟨{ m with store := kvInsert m.store (getUserKey email) (.user ⟨freshId, email, bcryptGenerateFromPassword salt password, now, now⟩) }, ?_, ?_, ?_⟩
  · unfold Register
    rw [if_neg (by simp [he, hp])]
    simp only [hkv]
    unfold saveUser
    simp [kvSet, userToJSON, hsetU, hsetI]
  · refine ⟨⟨freshId, email, bcryptGenerateFromPassword salt password, now, now⟩, ?_, rfl, rfl⟩
    unfold getUserByEmail kvGet
    rw [if_neg hgetU]
    rw [kvLookup_insert_self]
    rfl
  · refine ⟨NewAppError "Client.GetUserByID" .userNotFound "user not found" 404, ?_, rfl⟩
    have hkvI : kvGet { m with store := kvInsert m.store (getUserKey email) (.user ⟨freshId, email, bcryptGenerateFromPassword salt password, now, now⟩) } (getUserIDKey freshId) = none := by
      unfold kvGet
      split
      · rfl
      · rw [kvLookup_insert_ne _ _ _ _
          (fun hk => getUserKey_ne_getUserIDKey email freshId hk.symm)]
        exact hlookI
    unfold GetUserByID
    rw [hkvI]

/-- Witness for C5: an empty store whose set call on the id key fails. -/
theorem claim_register_partial_write_surfaced_witness :
    ∃ m1,
      Register ⟨[], [], [getUserIDKey "id1"], []⟩ "id1" "s1" 0 "a@x.com" "pw" =
        (.error (NewAppError "Client.saveUser" (.kvFailure (getUserIDKey "id1"))
            "failed to save user ID mapping" 500),
          m1,
          [.getE (getUserKey "a@x.com"), .hashE, .setE (getUserKey "a@x.com"),
            .setE (getUserIDKey "id1")]) ∧
      (∃ u, getUserByEmail m1 "a@x.com" = .ok u ∧ u.id = "id1" ∧ u.email = "a@x.com") ∧
      (∃ e2, GetUserByID m1 "id1" = .error e2 ∧ e2.err = .userNotFound) :=
  claim_register_partial_write_surfaced ⟨[], [], [getUserIDKey "id1"], []⟩
    "id1" "s1" 0 "a@x.com" "pw" (by simp) (by simp) (by decide) rfl rfl
    (by decide) (by decide)

/-- C10: `Register` discards the error of its existence probe.  When the KV
get on the email key fails (whatever the store holds there), Register treats
the email as unregistered: it hashes the password, writes both entries
(trace `get, hash, set, set`), succeeds, and the email key afterwards holds
the freshly created record, overwriting whatever was stored before. -/
theorem claim_register_probe_error_discarded (m : KVState) (freshId salt : String)
    (now : Int) (email password : String)
    (he : email ≠ "") (hp : password ≠ "")
    (herr : getUserKey email ∈ m.getErr)
    (hsetU : getUserKey email ∉ m.setErr)
    (hsetI : getUserIDKey freshId ∉ m.setErr) :
    ∃ m1,
      Register m freshId salt now email password =
        (.ok ⟨freshId, email, bcryptGenerateFromPassword salt password, now, now⟩,
          m1,
          [.getE (getUserKey email), .hashE, .setE (getUserKey email),
            .setE (getUserIDKey freshId)]) ∧
      kvLookup m1.store (getUserKey email) =
        some (.user ⟨freshId, email, bcryptGenerateFromPassword salt password, now, now⟩) := by
  have hkv : kvGet m (getUserKey email) = none := by
    unfold kvGet
    rw [if_pos herr]
  refine ⟨{ m with store := kvInsert (kvInsert m.store (getUserKey email) (.user ⟨freshId, email, bcryptGenerateFromPassword salt password, now, now⟩)) (getUserIDKey freshId) (.raw email) }, ?_, ?_⟩
  · unfold Register
    rw [if_neg (by simp [he, hp])]
    simp only [hkv]
    unfold saveUser
    simp [kvSet, userToJSON, hsetU, hsetI]
  · rw [kvLookup_insert_ne _ _ _ _ (getUserKey_ne_getUserIDKey email freshId),
      kvLookup_insert_self]

/-- Witness for C10: a store that already holds a different record under the
email key but whose get calls on that key fail; Register succeeds and
overwrites it. -/
theorem claim_register_probe_error_discarded_witness :
    ∃ m1,
      Register ⟨[(getUserKey "a@x.com", .user ⟨"old", "a@x.com", ⟨"s0", "old-pw"⟩, 0, 0⟩)],
          [getUserKey "a@x.com"], [], []⟩ "id1" "s1" 9 "a@x.com" "pw" =
        (.ok ⟨"id1", "a@x.com", bcryptGenerateFromPassword "s1" "pw", 9, 9⟩,
          m1,
          [.getE (getUserKey "a@x.com"), .hashE, .setE (getUserKey "a@x.com"),
            .setE (getUserIDKey "id1")]) ∧
      kvLookup m1.store (getUserKey "a@x.com") =
        some (.user ⟨"id1", "a@x.com", bcryptGenerateFromPassword "s1" "pw", 9, 9⟩) :=
  claim_register_probe_error_discarded
    ⟨[(getUserKey "a@x.com", .user ⟨"old", "a@x.com", ⟨"s0", "old-pw"⟩, 0, 0⟩)],
      [getUserKey "a@x.com"], [], []⟩ "id1" "s1" 9 "a@x.com" "pw"
    (by simp) (by simp) (by simp) (by simp) (by simp)

/-- C3: a token issued for a user (HS256 under the client secret, with
claims naming the user's id) that is still time-valid fails `ValidateToken`
with user-not-found once `DeleteUser` for that user has completed: validation
re-fetches the live record by the embedded id instead of trusting the
snapshot, and `GetUserByID` on that id likewise reports user-not-found. -/
theorem claim_deleted_user_fails_validation (c : Client) (m m1 : KVState)
    (email : String) (u : User) (cl : Claims) (tVal : Int)
    (hget : getUserByEmail m email = .ok u)
    (hdel : DeleteUser m email = (.ok (), m1))
    (hid : cl.userID = u.id)
    (hnbf : cl.notBefore ≤ tVal)
    (hexp : tVal < cl.expiresAt) :
    (∃ e, ValidateToken c m1 tVal (signedToken .HS256 c.jwtSecret cl) = .error e ∧
      e.err = .userNotFound ∧ e.op = "Client.GetUserByID") ∧
    (∃ e, GetUserByID m1 u.id = .error e ∧ e.err = .userNotFound) := by
  obtain ⟨u', hget', -, -, hm1⟩ := DeleteUser_ok_inv m email m1 hdel
  rw [hget'] at hget
  have huu : u' = u := Except.ok.inj hget
  subst huu
  have hkvI : kvGet m1 (getUserIDKey u'.id) = none := by
    subst hm1
    unfold kvGet
    split
    · rfl
    · exact kvLookup_remove_self _ _
  have hByID : GetUserByID m1 u'.id =
      .error (NewAppError "Client.GetUserByID" .userNotFound "user not found" 404) := by
    unfold GetUserByID
    rw [hkvI]
  have h4 : ¬ tVal < cl.notBefore := not_lt.mpr hnbf
  have hparse : parseToken c.jwtSecret tVal (signedToken .HS256 c.jwtSecret cl) = .ok cl := by
    simp [parseToken, signedToken, Alg.isHMAC, hexp, h4]
  constructor
  · refine ⟨NewAppError "Client.GetUserByID" .userNotFound "user not found" 404, ?_, rfl, rfl⟩
    unfold ValidateToken
    rw [hparse]
    show GetUserByID m1 cl.userID =
      Except.error (NewAppError "Client.GetUserByID" .userNotFound "user not found" 404)
    rw [hid]
    exact hByID
  · exact ⟨NewAppError "Client.GetUserByID" .userNotFound "user not found" 404, hByID, rfl⟩

/-- Witness for C3: register-like one-user store, delete the user, then
validate a token that is still inside its validity window. -/
theorem claim_deleted_user_fails_validation_witness :
    (∃ e, ValidateToken ⟨"sec", 3600⟩ ⟨[], [], [], []⟩ 10
        (signedToken .HS256 "sec" ⟨"id1", "a@x.com", 3600, 5, 5⟩) = .error e ∧
      e.err = .userNotFound ∧ e.op = "Client.GetUserByID") ∧
    (∃ e, GetUserByID ⟨[], [], [], []⟩ "id1" = .error e ∧ e.err = .userNotFound) :=
  claim_deleted_user_fails_validation ⟨"sec", 3600⟩
    ⟨[(getUserKey "a@x.com", .user ⟨"id1", "a@x.com", ⟨"s1", "pw"⟩, 0, 0⟩),
      (getUserIDKey "id1", .raw "a@x.com")], [], [], []⟩
    ⟨[], [], [], []⟩ "a@x.com" ⟨"id1", "a@x.com", ⟨"s1", "pw"⟩, 0, 0⟩
    ⟨"id1", "a@x.com", 3600, 5, 5⟩ 10 rfl rfl rfl (by decide) (by decide)

/-- C1: if `Register` succeeds against a store whose reads on the two derived
keys work, then `Login` with the same credentials against the resulting store
succeeds, and `ValidateToken` on the returned token (within its validity
window) resolves to a user carrying the id `Register` returned. -/
theorem claim_register_login_validate_roundtrip (c : Client) (m m1 : KVState)
    (freshId salt email password : String) (tReg tLogin tVal : Int)
    (u : User) (effs : List Eff)
    (hreg : Register m freshId salt tReg email password = (.ok u, m1, effs))
    (hgetU : getUserKey email ∉ m.getErr)
    (hgetI : getUserIDKey freshId ∉ m.getErr)
    (ht1 : tLogin ≤ tVal)
    (ht2 : tVal < tLogin + c.jwtExpiry) :
    ∃ tok expiry info effsL,
      Login c m1 tLogin email password = (.ok ⟨tok, expiry, info⟩, effsL) ∧
      ∃ v, ValidateToken c m1 tVal tok = .ok v ∧ v.id = u.id := by
  obtain ⟨he, hp, -, hu, -, -, hm1, -⟩ :=
    Register_ok_inv m freshId salt tReg email password u m1 effs hreg
  have hkvU : kvGet m1 (getUserKey email) = some (.user u) := by
    subst hm1
    unfold kvGet
    rw [if_neg hgetU]
    rw [kvLookup_insert_ne _ _ _ _ (getUserKey_ne_getUserIDKey email freshId),
      kvLookup_insert_self]
  have hge : getUserByEmail m1 email = .ok u := by
    unfold getUserByEmail
    rw [hkvU]
    rfl
  have hcmp : bcryptCompareHashAndPassword u.passwordHash password = true := by
    rw [hu]
    simp [bcryptCompareHashAndPassword, bcryptGenerateFromPassword]
  have hlogin : Login c m1 tLogin email password =
      (.ok ⟨signedToken .HS256 c.jwtSecret ⟨u.id, u.email, tLogin + c.jwtExpiry, tLogin, tLogin⟩,
        tLogin + c.jwtExpiry, ⟨u.id, u.email⟩⟩,
       [.getE (getUserKey email), .hashE, .signE]) := by
    unfold Login
    rw [if_neg (by simp [he, hp])]
    simp only [hge]
    simp [hcmp]
  have h4 : ¬ tVal < tLogin := not_lt.mpr ht1
  have hparse : parseToken c.jwtSecret tVal
      (signedToken .HS256 c.jwtSecret ⟨u.id, u.email, tLogin + c.jwtExpiry, tLogin, tLogin⟩) =
      .ok ⟨u.id, u.email, tLogin + c.jwtExpiry, tLogin, tLogin⟩ := by
    simp [parseToken, signedToken, Alg.isHMAC, ht2, h4]
  have hkvI : kvGet m1 (getUserIDKey freshId) = some (.raw email) := by
    subst hm1
    unfold kvGet
    rw [if_neg hgetI]
    exact kvLookup_insert_self _ _ _
  have hbyid : GetUserByID m1 freshId = .ok u := by
    unfold GetUserByID
    rw [hkvI]
    exact hge
  refine ⟨signedToken .HS256 c.jwtSecret ⟨u.id, u.email, tLogin + c.jwtExpiry, tLogin, tLogin⟩,
    tLogin + c.jwtExpiry, ⟨u.id, u.email⟩, [.getE (getUserKey email), .hashE, .signE],
    hlogin, u, ?_, rfl⟩
  unfold ValidateToken
  rw [hparse]
  show GetUserByID m1 u.id = Except.ok u
  have hidu : u.id = freshId := by rw [hu]
  rw [hidu]
  exact hbyid

/-- Witness for C1: register on the empty store, login and validate at
concrete times inside the validity window. -/
theorem claim_register_login_validate_roundtrip_witness :
    ∃ tok expiry info effsL,
      Login ⟨"sec", 3600⟩
        { store := kvInsert (kvInsert ([] : List (String × Val)) (getUserKey "a@x.com")
            (.user ⟨"id1", "a@x.com", bcryptGenerateFromPassword "s1" "pw", 0, 0⟩))
            (getUserIDKey "id1") (.raw "a@x.com"),
          getErr := [], setErr := [], delErr := [] }
        5 "a@x.com" "pw" = (.ok ⟨tok, expiry, info⟩, effsL) ∧
      ∃ v, ValidateToken ⟨"sec", 3600⟩
        { store := kvInsert (kvInsert ([] : List (String × Val)) (getUserKey "a@x.com")
            (.user ⟨"id1", "a@x.com", bcryptGenerateFromPassword "s1" "pw", 0, 0⟩))
            (getUserIDKey "id1") (.raw "a@x.com"),
          getErr := [], setErr := [], delErr := [] }
        6 tok = .ok v ∧
        v.id = (⟨"id1", "a@x.com", bcryptGenerateFromPassword "s1" "pw", 0, 0⟩ : User).id :=
  claim_register_login_validate_roundtrip ⟨"sec", 3600⟩ ⟨[], [], [], []⟩ _
    "id1" "s1" "a@x.com" "pw" 0 5 6
    ⟨"id1", "a@x.com", bcryptGenerateFromPassword "s1" "pw", 0, 0⟩
    [.getE (getUserKey "a@x.com"), .hashE, .setE (getUserKey "a@x.com"),
      .setE (getUserIDKey "id1")]
    rfl (by simp) (by simp) (by decide) (by decide)

end AuthSdk
